import Mathlib

/-!
Verification of the BuildXL Linux sandbox observer
(`Public/Src/Sandbox/Linux/bxl_observer.cpp`).

The development shallowly embeds the observer's access-resolution and
reporting pipeline: the duplicate-suppression cache (`CheckCache`,
`IsCacheHit`), the access-creation pipeline (`create_access`), the report
sender size discipline (`SendReport`), the in-place path normalizer and
symlink resolver (`resolve_path`), the forced-trace decision
(`check_and_report_statically_linked_process`), the fd-to-path resolver
(`fd_to_path`), and directory enumeration (`EnumerateDirectory`).

Side effects of the C++ code (mutex acquisition, `readlink`, `lstat`,
`prctl`, `objdump`, the policy engine) are modelled as explicit oracle
parameters; mutable state (the caches, the fd table) is threaded
explicitly.  All definitions are executable so that concrete runs can be
settled by `decide`.
-/

namespace BxlObserver

/-- Raw `es_event_type_t` kinds used by the observer (the
`ES_EVENT_TYPE_NOTIFY_` namespace of the source, with the common name
dropped). -/
inductive EsEvent where
  | TRUNCATE
  | SETATTRLIST
  | SETEXTATTR
  | DELETEEXTATTR
  | SETFLAGS
  | SETOWNER
  | SETMODE
  | WRITE
  | UTIMES
  | SETTIME
  | SETACL
  | GETATTRLIST
  | GETEXTATTR
  | LISTEXTATTR
  | ACCESS
  | STAT
  | FORK
  | EXEC
  | EXIT
  | READLINK
  | OPEN
deriving DecidableEq, Repr

/-- Coalescing of raw event kinds, translated from the `switch` at the top
of `BxlObserver::CheckCache`.  The write-like case labels end with `break`
and map to `WRITE`.  The stat-like case labels (`GETATTRLIST`,
`GETEXTATTR`, `LISTEXTATTR`, `ACCESS`, `STAT`) assign
`key = ES_EVENT_TYPE_NOTIFY_STAT` but lack a `break`, so control falls
through into the `default` label, which overwrites `key` with the raw
event; their net effect is therefore the identity, the same as the
`default` label. -/
def coalesce : EsEvent → EsEvent
  | .TRUNCATE => .WRITE
  | .SETATTRLIST => .WRITE
  | .SETEXTATTR => .WRITE
  | .DELETEEXTATTR => .WRITE
  | .SETFLAGS => .WRITE
  | .SETOWNER => .WRITE
  | .SETMODE => .WRITE
  | .WRITE => .WRITE
  | .UTIMES => .WRITE
  | .SETTIME => .WRITE
  | .SETACL => .WRITE
  | e => e

/-- The duplicate-suppression cache
(`unordered_map<es_event_type_t, unordered_set<string>>`), as an
association list from coalesced keys to the set (list without duplicates)
of paths already seen. -/
abbrev Cache := List (EsEvent × List String)

/-- `cache_.find(key)`. -/
def cacheFind : Cache → EsEvent → Option (List String)
  | [], _ => none
  | (k, s) :: rest, key => if k = key then some s else cacheFind rest key

/-- `it->second.insert(path)` on the set stored under `key` (no-op when the
path is already present). -/
def cacheAddPath : Cache → EsEvent → String → Cache
  | [], _, _ => []
  | (k, s) :: rest, key, path =>
      if k = key then (k, if path ∈ s then s else s ++ [path]) :: rest
      else (k, s) :: cacheAddPath rest key path

/-- `BxlObserver::CheckCache(event, path, addEntryIfMissing)`.

`lockAcquired` is the outcome of `cacheMtx_.try_lock_for(1ms)`: on a
timeout the function returns `false` without touching the cache.  The
returned pair is (result, updated cache).  Note that `CheckCache` itself
never consults the `disposed_` flag; only `IsCacheHit` does. -/
def CheckCache (lockAcquired : Bool) (event : EsEvent) (path : String)
    (addEntryIfMissing : Bool) (cache : Cache) : Bool × Cache :=
  let key := coalesce event
  if lockAcquired = false then (false, cache)
  else
    match cacheFind cache key with
    | none =>
        if addEntryIfMissing then (false, cache ++ [(key, [path])])
        else (false, cache)
    | some s =>
        if addEntryIfMissing then
          if path ∈ s then (true, cache)
          else (false, cacheAddPath cache key path)
        else (decide (path ∈ s), cache)

/-- `BxlObserver::IsCacheHit(event, path, secondPath)`: returns `false`
outright when the observer is disposed, when a second path is present, or
for FORK/EXEC/EXIT; otherwise a pure (non-inserting) `CheckCache` probe.
It never mutates the cache. -/
def IsCacheHit (disposed lockAcquired : Bool) (event : EsEvent)
    (path secondPath : String) (cache : Cache) : Bool :=
  if disposed = true ∨ 0 < secondPath.length ∨ event = .FORK
      ∨ event = .EXEC ∨ event = .EXIT then false
  else (CheckCache lockAcquired event path false cache).1

/-- Result of `IOHandler::CheckAccessAndBuildReport` (the external policy
engine), restricted to the two bits the observer inspects. -/
structure AccessCheckResult where
  shouldDenyAccess : Bool
  shouldReport : Bool
deriving DecidableEq, Repr

/-- `BxlObserver::is_anonymous_file`: the path of an anonymous file starts
with the 7 characters of the literal used by `strncmp`. -/
def is_anonymous_file (path : String) : Bool :=
  decide (path.data.take 7 = "/memfd:".data)

/-- `BxlObserver::create_access(syscallName, IOEvent, reportGroup,
checkCache)`.

`lockA` is the lock oracle for the `IsCacheHit` probe, `lockB` the one for
the inserting `CheckCache` call; `policyResult` is the policy engine
oracle.  Returns (result, updated cache, whether the policy engine was
invoked); `none` stands for the `sNotChecked` sentinel. -/
def create_access_ioevent (disposed lockA lockB : Bool) (eventType : EsEvent)
    (srcPath dstPath : String) (checkCache isEnabled : Bool)
    (policyResult : AccessCheckResult) (isFailingUnexpected : Bool)
    (cache : Cache) : Option AccessCheckResult × Cache × Bool :=
  if checkCache = true ∧
      IsCacheHit disposed lockA eventType srcPath dstPath cache = true then
    (none, cache, false)
  else if is_anonymous_file srcPath = true ∨
      (0 < dstPath.length ∧ is_anonymous_file dstPath = true) then
    (none, cache, false)
  else if isEnabled = true then
    if ¬ (policyResult.shouldDenyAccess = true ∧ isFailingUnexpected = true) then
      -- the access will not be blocked, so the source caches it via
      -- CheckCache(eventType, srcPath, addEntryIfMissing = true),
      -- with no disposed check on this path
      (some policyResult, (CheckCache lockB eventType srcPath true cache).2, true)
    else
      (some policyResult, cache, true)
  else (none, cache, false)

/-! ### Report sender size discipline (`BxlObserver::SendReport`) -/

/-- `PIPE_BUF` on Linux. -/
def PIPE_BUF : Nat := 4096

/-- `sizeof(uint)`, the 4-byte length prefix of every message. -/
def PrefixLength : Nat := 4

/-- `PIPE_BUF - PrefixLength`: the capacity available to the serialized
record itself. -/
def maxMessageLength : Nat := PIPE_BUF - PrefixLength

/-- Modelled from the spec: `BuildReport` is declared in
`bxl_observer.hpp`, which is not among the sources.  Per the spec the
record is the delimited header fields (operation, pids, flags, status,
error, pip id, stat fields, directory flag) followed by the free-form
path field and the terminating newline, and the builder returns
(snprintf style) the length the full record needs regardless of the
buffer limit.  `headerLen` is the total length of everything before the
path field. -/
def buildReportSize (headerLen pathLen : Nat) : Nat := headerLen + pathLen + 1

/-- Observable outcome of `BxlObserver::SendReport`. -/
inductive SendOutcome where
  /-- `kOpProcessTreeCompleted`: return `true` without sending anything. -/
  | skipped
  /-- `_fatal`: the traced process aborts. -/
  | fatal
  /-- `Send` is reached with a record of `recordSize` bytes (plus the
  4-byte prefix) whose path field kept `pathKept` bytes. -/
  | sent (recordSize pathKept : Nat)
deriving DecidableEq, Repr

/-- `BxlObserver::SendReport(report, isDebugMessage, useSecondaryPipe)`,
restricted to its size discipline.  `pathLen` is `strlen(report.path)`.
When the record does not fit, a non-debug report is fatal; a debug report
has its path cropped to `strlen(path) - (reportSize - maxMessageLength) - 1`
bytes of storage, of which `strncpy` fills all but a trailing NUL, and is
re-serialized. -/
def SendReport (isTreeCompleted isDebugMessage : Bool)
    (headerLen pathLen : Nat) : SendOutcome :=
  if isTreeCompleted = true then .skipped
  else
    let reportSize := buildReportSize headerLen pathLen
    if maxMessageLength ≤ reportSize then
      if isDebugMessage = false then .fatal
      else
        let truncatedSize := pathLen - (reportSize - maxMessageLength) - 1
        let keptLen := truncatedSize - 1
        .sent (buildReportSize headerLen keptLen) keptLen
    else .sent reportSize pathLen

/-! ### Mode filtering (`is_non_file`, `create_access_internal`) -/

/-- `S_IFMT`, the file-type mask of `mode_t`. -/
def S_IFMT : Nat := 0xF000

/-- `S_ISDIR`. -/
def S_ISDIR (m : Nat) : Bool := decide (m &&& S_IFMT = 0x4000)

/-- `S_ISREG`. -/
def S_ISREG (m : Nat) : Bool := decide (m &&& S_IFMT = 0x8000)

/-- `S_ISLNK`. -/
def S_ISLNK (m : Nat) : Bool := decide (m &&& S_IFMT = 0xA000)

/-- `BxlObserver::is_non_file(mode)`. -/
def is_non_file (mode : Nat) : Bool :=
  decide (mode ≠ 0) && !(S_ISDIR mode) && !(S_ISREG mode) && !(S_ISLNK mode)

/-- `BxlObserver::create_access_internal`.  `modeArg` is the `mode`
argument; when it is `0` the source recomputes it as
`get_mode(reportPath)`, whose outcome is the oracle `getModeResult`
(`0` when the underlying stat failed).  A `none` second path stands for
the `nullptr` replaced by `empty_str_`. -/
def create_access_internal (disposed lockA lockB : Bool) (eventType : EsEvent)
    (reportPath : String) (secondPath : Option String)
    (modeArg getModeResult : Nat) (checkCache isEnabled : Bool)
    (policyResult : AccessCheckResult) (isFailingUnexpected : Bool)
    (cache : Cache) : Option AccessCheckResult × Cache × Bool :=
  let secondPathStr := secondPath.getD ""
  if checkCache = true ∧
      IsCacheHit disposed lockA eventType reportPath secondPathStr cache = true then
    (none, cache, false)
  else
    let mode := if modeArg = 0 then getModeResult else modeArg
    if is_non_file mode = true then (none, cache, false)
    else
      -- the source builds the IOEvent and calls
      -- create_access(syscallName, event, reportGroup, checkCache = false)
      create_access_ioevent disposed lockA lockB eventType reportPath secondPathStr
        false isEnabled policyResult isFailingUnexpected cache

/-! ### Path normalizer and symlink resolver (`BxlObserver::resolve_path`)

The source works in place on a NUL-terminated `char` buffer with a scan
pointer `pFullpath`.  The embedding keeps the buffer as a `List Char`
(without the terminating NUL; the scan position equal to the buffer length
plays the role of pointing at the NUL) and records, besides the buffer,
every `readlink` probe issued and every readlink-class report emitted. -/

/-- The filesystem `readlink` oracle: an association list from a symlink
path to its target; paths not listed are not symlinks (`readlink`
returns -1). -/
abbrev SymlinkTable := List (List Char × List Char)

/-- Look a path up in the symlink table. -/
def readlinkOracle : SymlinkTable → List Char → Option (List Char)
  | [], _ => none
  | (p, t) :: rest, q => if p = q then some t else readlinkOracle rest q

/-- `find_prev_slash`: index of the nearest slash strictly before
position `i` (the source scans backwards with a pre-decrement, so the
character at `i` itself is not examined; the buffer always starts with a
slash, which bounds the scan). -/
def find_prev_slash (buf : List Char) : Nat → Nat
  | 0 => 0
  | j + 1 => if buf.get? j = some '/' then j else find_prev_slash buf j

/-- `shift_left(buf + start + len, len)`, viewed as deleting the `len`
characters at index `start`. -/
def delete_range (buf : List Char) (start len : Nat) : List Char :=
  buf.take start ++ buf.drop (start + len)

/-- State of the `resolve_path` scan loop. -/
structure ResolveState where
  /-- the path buffer (`fullpath`) -/
  buf : List Char
  /-- the scan position (`pFullpath - fullpath`) -/
  pos : Nat
  /-- the per-call `visited` set, in insertion order -/
  visited : List (List Char)
  /-- every path handed to `real_readlink`, in order -/
  probes : List (List Char)
  /-- every path reported with a readlink-class access, in order -/
  reports : List (List Char)
deriving DecidableEq, Repr

/-- Result of running the scan loop with finite fuel. -/
inductive ResolveResult where
  /-- the loop reached its `break` -/
  | done (s : ResolveState)
  /-- the fuel ran out before the loop finished -/
  | outOfFuel (s : ResolveState)
deriving DecidableEq, Repr

/-- One loop iteration either continues with a new state or stops. -/
inductive StepOut where
  /-- `continue` -/
  | next (s : ResolveState)
  /-- `break` -/
  | stop (s : ResolveState)
deriving DecidableEq, Repr

/-- One iteration of the `while (true)` loop of
`BxlObserver::resolve_path`: first the in-place collapsing of `//`, `/./`
and `/../`; then, at a separator (or at the end when the final symlink is
followed), the `readlink` probe, the visited-set check that breaks symlink
cycles, the readlink-class report, and the splice of the link target into
the buffer (absolute targets restart the scan from the beginning, relative
targets replace the last segment). -/
def resolveStep (fs : SymlinkTable) (follow : Bool) (s : ResolveState) :
    StepOut :=
  let buf := s.buf
  let i := s.pos
  let collapse : Option ResolveState :=
    if buf.get? i = some '/' then
      let pPrev := find_prev_slash buf i
      let parentDirLen := i - pPrev - 1
      if parentDirLen = 0 then
        some { s with buf := delete_range buf i 1 }
      else if parentDirLen = 1 ∧ buf.get? (i - 1) = some '.' then
        some { s with buf := delete_range buf (i - 1) 2, pos := i - 1 }
      else if parentDirLen = 2 ∧ buf.get? (i - 1) = some '.' ∧
          buf.get? (i - 2) = some '.' then
        let pPrev2 := if 0 < pPrev then find_prev_slash buf pPrev else pPrev
        let shiftLen := i - pPrev2
        some { s with buf := delete_range buf (i + 1 - shiftLen) shiftLen,
                      pos := pPrev2 + 1 }
      else none
    else none
  match collapse with
  | some s2 => .next s2
  | none =>
    let atSep := buf.get? i = some '/'
    let atEnd := i = buf.length
    if atSep ∨ (atEnd ∧ follow = true) then
      let pfx := buf.take i
      let s1 := { s with probes := s.probes ++ [pfx] }
      match readlinkOracle fs pfx with
      | none =>
        -- not a symlink: continue, or exit at the end of the path
        if atEnd then .stop s1 else .next { s1 with pos := i + 1 }
      | some target =>
        -- break if the same symlink has already been visited
        if pfx ∈ s1.visited then .stop s1
        else
          let s2 := { s1 with visited := s1.visited ++ [pfx],
                              reports := s1.reports ++ [pfx] }
          let rest :=
            if target.getLast? = some '/' ∧ buf.get? i = some '/' then
              buf.drop (i + 1)
            else buf.drop i
          let combined := target ++ rest
          if combined.head? = some '/' then
            .next { s2 with buf := combined, pos := 1 }
          else
            let j := find_prev_slash buf i
            .next { s2 with buf := buf.take (j + 1) ++ combined, pos := j + 1 }
    else
      if atEnd then .stop s else .next { s with pos := i + 1 }

/-- The scan loop, with fuel making the recursion evidently finite. -/
def resolveLoop (fs : SymlinkTable) (follow : Bool) :
    Nat → ResolveState → ResolveResult
  | 0, s => .outOfFuel s
  | fuel + 1, s =>
    match resolveStep fs follow s with
    | .stop s2 => .done s2
    | .next s2 => resolveLoop fs follow fuel s2

/-- `BxlObserver::resolve_path(fullpath, followFinalSymlink, pid)`: a
non-absolute input returns unchanged; otherwise the scan starts at
position 1. -/
def resolve_path (fs : SymlinkTable) (follow : Bool) (fuel : Nat)
    (fullpath : List Char) : ResolveResult :=
  if fullpath.head? = some '/' then
    resolveLoop fs follow fuel ⟨fullpath, 1, [], [], []⟩
  else
    .done ⟨fullpath, 0, [], [], []⟩

/-- Final buffer, probes and reports of a terminating `resolve_path` run
(`none` when the fuel ran out). -/
def resolveRun (fs : SymlinkTable) (follow : Bool) (fuel : Nat)
    (fullpath : List Char) :
    Option (List Char × List (List Char) × List (List Char)) :=
  match resolve_path fs follow fuel fullpath with
  | .done s => some (s.buf, s.probes, s.reports)
  | .outOfFuel _ => none

/-- Whether a path ends in a `.` or `..` segment. -/
def ends_in_dot_segment (q : List Char) : Bool :=
  decide (q.reverse.take 2 = ['.', '/']) ||
    decide (q.reverse.take 3 = ['.', '.', '/'])

/-! ### Static-linking / forced-trace decision
(`BxlObserver::check_and_report_statically_linked_process`) -/

/-- Externally visible actions of the forced-trace decision, in program
order. -/
inductive TraceAction where
  /-- a successful `set_ptrace_permissions` (`prctl(PR_SET_PTRACER, ...)`) -/
  | setPtracePermissions
  /-- `SendReport` of a `kOpStaticallyLinkedProcess` report; the flag is
  the `useSecondaryPipe` argument -/
  | sendStaticallyLinkedReport (useSecondaryPipe : Bool)
  /-- `is_statically_linked(path)`, which spawns the external `objdump` -/
  | invokeObjdump (path : String)
deriving DecidableEq, Repr

/-- Outcome of the decision: a return value, or `exit(-1)` from a failed
`prctl` inside `set_ptrace_permissions`. -/
inductive StaticCheckOutcome where
  /-- the function returns `b` -/
  | returns (b : Bool)
  /-- the traced process exits with code -1 -/
  | exited
deriving DecidableEq, Repr

/-- The manifest flags and environment list consulted by the decision. -/
structure PTraceConfig where
  /-- `CheckEnableLinuxPTraceSandbox(pip_->GetFamExtraFlags())` -/
  ptraceEnabled : Bool
  /-- `CheckUnconditionallyEnableLinuxPTraceSandbox(...)` -/
  unconditionallyEnabled : Bool
  /-- `forcedPTraceProcessNames_` -/
  forcedNames : List String
deriving Repr

/-- libc `basename`: the component after the last slash. -/
def basename (path : String) : String :=
  String.mk ((path.data.reverse.takeWhile (fun ch => ch ≠ '/')).reverse)

/-- `BxlObserver::IsPTraceForced(path)`. -/
def IsPTraceForced (forcedNames : List String) (path : String) : Bool :=
  if forcedNames.length = 0 then false
  else decide (basename path ∈ forcedNames)

/-- `std::find_if` over `staticallyLinkedProcessCache_`. -/
def staticCacheFind : List (String × Bool) → String → Option Bool
  | [], _ => none
  | (k, b) :: rest, key => if k = key then some b else staticCacheFind rest key

/-- `BxlObserver::check_and_report_statically_linked_process(path)`.

`mtimeSec` is the `lstat` oracle (`statbuf.st_mtim.tv_sec`),
`objdumpStatic` the `is_statically_linked` oracle, and `prctlOk` whether
`prctl(PR_SET_PTRACER, PR_SET_PTRACER_ANY)` succeeds.  Returns the
outcome, the updated static-link cache, and the action trace in program
order. -/
def check_and_report_statically_linked_process (cfg : PTraceConfig)
    (mtimeSec : Int) (objdumpStatic prctlOk : Bool)
    (cache : List (String × Bool)) (path : String) :
    StaticCheckOutcome × List (String × Bool) × List TraceAction :=
  if cfg.ptraceEnabled = false then (.returns false, cache, [])
  else if IsPTraceForced cfg.forcedNames path = true ∨
      cfg.unconditionallyEnabled = true then
    if prctlOk = false then (.exited, cache, [])
    else (.returns true, cache,
      [.setPtracePermissions, .sendStaticallyLinkedReport true])
  else
    match staticCacheFind cache (toString mtimeSec ++ ":" ++ path) with
    | some b =>
      if b = true then
        if prctlOk = false then (.exited, cache, [])
        else (.returns true, cache,
          [.setPtracePermissions, .sendStaticallyLinkedReport true])
      else (.returns false, cache, [])
    | none =>
      if objdumpStatic = true then
        if prctlOk = false then
          (.exited, cache ++ [(toString mtimeSec ++ ":" ++ path, objdumpStatic)],
            [.invokeObjdump path])
        else (.returns true,
          cache ++ [(toString mtimeSec ++ ":" ++ path, objdumpStatic)],
          [.invokeObjdump path, .setPtracePermissions,
            .sendStaticallyLinkedReport true])
      else (.returns false,
        cache ++ [(toString mtimeSec ++ ":" ++ path, objdumpStatic)],
        [.invokeObjdump path])

/-- Whether every `kOpStaticallyLinkedProcess` report in the trace is
preceded by a successful grant of tracing permission; `granted` carries
whether a grant has been seen so far. -/
def grantPrecedesSends (granted : Bool) : List TraceAction → Bool
  | [] => true
  | .sendStaticallyLinkedReport _ :: rest =>
      granted && grantPrecedesSends granted rest
  | .setPtracePermissions :: rest => grantPrecedesSends true rest
  | .invokeObjdump _ :: rest => grantPrecedesSends granted rest

/-! ### File-descriptor resolver (`BxlObserver::fd_to_path`) -/

/-- `BxlObserver::fd_to_path(fd, associatedPid)`.

`maxFd` is the table capacity `MAX_FD` (defined in `bxl_observer.hpp`,
which is not among the sources; per the spec the table is a fixed-capacity
array, so the capacity is a parameter here).  `readlinkResult` is the
`read_path_for_fd` oracle (`none` when `real_readlink` returns -1, in
which case the zero-initialized local buffer stays empty).  Returns the
resolved path and the updated table. -/
def fd_to_path (useFdTable : Bool) (maxFd : Nat)
    (readlinkResult : Option String) (table : List String) (fd : Int) :
    String × List String :=
  if fd < 0 ∨ (maxFd : Int) ≤ fd then
    (readlinkResult.getD "", table)
  else
    if useFdTable = true ∧ 0 < (table.getD fd.toNat "").length then
      (table.getD fd.toNat "", table)
    else
      match readlinkResult with
      | none => ("", table)
      | some p => (p, if useFdTable = true then table.set fd.toNat p else table)

/-! ### Directory enumeration (`BxlObserver::EnumerateDirectory`) -/

/-- The `opendir`/`readdir` oracle: a directory maps to its listing
(entry name, whether `d_type == DT_DIR`); a directory mapped to `none` or
absent from the table fails to open. -/
abbrev DirTable := List (String × Option (List (String × Bool)))

/-- Look a directory up in the table. -/
def dirTableFind : DirTable → String → Option (List (String × Bool))
  | [], _ => none
  | (p, l) :: rest, q => if p = q then l else dirTableFind rest q

/-- The `while (!directoriesToEnumerate.empty())` loop of
`BxlObserver::EnumerateDirectory`.  The stack is a list with its head as
the top; `.` and `..` entries are skipped, sub-directories are pushed in
listing order (so the last-listed one is popped first), and every
non-dot entry is appended to the accumulator.  `none` means the fuel ran
out. -/
def enumLoop (fs : DirTable) (recursive : Bool) :
    Nat → List String → List String → Option (Bool × List String)
  | 0, _, _ => none
  | _ + 1, [], acc => some (true, acc)
  | fuel + 1, current :: rest, acc =>
    match dirTableFind fs current with
    | none => some (false, acc)
    | some entries =>
      let kept := entries.filter (fun e => decide (e.1 ≠ "." ∧ e.1 ≠ ".."))
      let fullPaths := kept.map (fun e => (current ++ "/" ++ e.1, e.2))
      let pushed :=
        (fullPaths.filter (fun e => e.2 && recursive)).map Prod.fst
      enumLoop fs recursive fuel (pushed.reverse ++ rest)
        (acc ++ fullPaths.map Prod.fst)

/-- `BxlObserver::EnumerateDirectory(rootDirectory, recursive, out)`: the
out-vector starts as `[rootDirectory]` and the stack holds the root. -/
def EnumerateDirectory (fs : DirTable) (fuel : Nat) (rootDirectory : String)
    (recursive : Bool) : Option (Bool × List String) :=
  enumLoop fs recursive fuel [rootDirectory] [rootDirectory]

/-- The concrete failing filesystem for C9: `/r` lists `B` then `A` (so
`A` is popped first), `/r/B` holds a file `c`, and `/r/A` fails to open. -/
def c9Fs : DirTable :=
  [("/r", some [("B", true), ("A", true)]),
   ("/r/B", some [("c", false)])]

end BxlObserver

namespace BxlObserver

/-- C1: probing the cache twice with the same path and two raw kinds of the
same coalesced bucket is claimed to return miss then hit for both the
write-variant and the stat-variant buckets.  Evaluating `CheckCache` at the
failing input shows the write-variant pair (TRUNCATE then SETMODE) does
return miss then hit, but the stat-variant pair (GETATTRLIST then STAT)
returns miss then miss: the missing `break` after
`key = ES_EVENT_TYPE_NOTIFY_STAT` makes that assignment dead, so the
stat-variant kinds are never coalesced. -/
theorem c1_stat_kinds_not_coalesced :
    ((CheckCache true .TRUNCATE "/p" true []).1 = false ∧
      (CheckCache true .SETMODE "/p" true
        (CheckCache true .TRUNCATE "/p" true []).2).1 = true) ∧
    ((CheckCache true .GETATTRLIST "/p" true []).1 = false ∧
      (CheckCache true .STAT "/p" true
        (CheckCache true .GETATTRLIST "/p" true []).2).1 = false) := by
  decide

/-- C2: after the observer is disposed every cache operation is claimed to
be a no-op.  Lookups through `IsCacheHit` are indeed inert (first
conjunct), but `create_access` still inserts into the cache through
`CheckCache`, which never consults the disposed flag: evaluating the
pipeline with `disposed = true` on an empty cache yields a non-empty cache
(second conjunct). -/
theorem c2_cache_mutated_after_dispose :
    (IsCacheHit true true .WRITE "/f" "" [(.WRITE, ["/f"])] = false) ∧
    ((create_access_ioevent true true true .WRITE "/f" "" false true
        ⟨false, true⟩ false []).2.1 = [(.WRITE, ["/f"])]) := by
  decide

/-- C3 counterexample: the claim quantifies over every report whose
serialized size exceeds the capacity and says a non-debug one always
aborts; but a `kOpProcessTreeCompleted` report is returned as a no-op
before any size check, so with header length 100 and path length 4000
(record size 4101 > 4092) `SendReport` does not abort. -/
theorem c3_treeCompleted_not_fatal :
    maxMessageLength < buildReportSize 100 4000 ∧
    SendReport true false 100 4000 = .skipped ∧
    SendReport true false 100 4000 ≠ .fatal := by
  decide

/-- C3 (amended): for every report other than the process-tree-completed
marker whose serialized size exceeds `PIPE_BUF` minus the 4-byte prefix:
a non-debug report aborts the process, and a debug report is re-sent with
the path field truncated by exactly the overflow plus two bytes (one for
the record terminator, one for the NUL `strncpy` leaves), after which the
re-serialized record fits the capacity. -/
theorem c3_oversize_report_discipline (headerLen pathLen : Nat)
    (hOver : maxMessageLength < buildReportSize headerLen pathLen)
    (hRoom : headerLen + 3 ≤ maxMessageLength) :
    SendReport false false headerLen pathLen = .fatal ∧
    SendReport false true headerLen pathLen =
      .sent
        (buildReportSize headerLen
          (pathLen - ((buildReportSize headerLen pathLen - maxMessageLength) + 2)))
        (pathLen - ((buildReportSize headerLen pathLen - maxMessageLength) + 2)) ∧
    buildReportSize headerLen
        (pathLen - ((buildReportSize headerLen pathLen - maxMessageLength) + 2))
      < maxMessageLength := by
  unfold SendReport buildReportSize maxMessageLength PIPE_BUF PrefixLength at *
  simp only [if_neg (by simp : ¬ (false = true)), if_pos (le_of_lt hOver),
    if_pos rfl]
  refine ⟨rfl, ?_, by omega⟩
  have h1 : pathLen - (headerLen + pathLen + 1 - (4096 - 4)) - 1 - 1 =
      pathLen - (headerLen + pathLen + 1 - (4096 - 4) + 2) := by omega
  rw [h1]
  simp

/-- C3 witness: the amended statement applied at header length 100 and
path length 4000. -/
theorem c3_oversize_report_discipline_witness :
    SendReport false false 100 4000 = .fatal ∧
    SendReport false true 100 4000 =
      .sent
        (buildReportSize 100
          (4000 - ((buildReportSize 100 4000 - maxMessageLength) + 2)))
        (4000 - ((buildReportSize 100 4000 - maxMessageLength) + 2)) ∧
    buildReportSize 100
        (4000 - ((buildReportSize 100 4000 - maxMessageLength) + 2))
      < maxMessageLength :=
  c3_oversize_report_discipline 100 4000 (by decide) (by decide)

/-- C4: on a two-element symlink cycle (a one-segment path resolving to a
second one-segment path and back), `resolve_path` terminates — the walk
stops when the previously visited resolved path repeats — and emits
exactly two readlink-class reports, one per distinct symlink path, with no
report for the repeated visit.  8 units of fuel already suffice, which is
the termination statement. -/
theorem c4_symlink_cycle_terminates (c d : Char) (hc : c ≠ '/')
    (hd : d ≠ '/') (hcd : c ≠ d) :
    resolveRun [(['/', c], ['/', d]), (['/', d], ['/', c])] true 8 ['/', c] =
      some (['/', c], [['/', c], ['/', d], ['/', c]],
        [['/', c], ['/', d]]) := by
  simp [resolveRun, resolve_path, resolveLoop, resolveStep, readlinkOracle,
    find_prev_slash, delete_range, hc, hd, hcd, Ne.symm hcd, List.get?]

/-- C4 witness: the cycle `/x -> /y`, `/y -> /x`. -/
theorem c4_symlink_cycle_terminates_witness :
    resolveRun [(['/', 'x'], ['/', 'y']), (['/', 'y'], ['/', 'x'])] true 8
        ['/', 'x'] =
      some (['/', 'x'], [['/', 'x'], ['/', 'y'], ['/', 'x']],
        [['/', 'x'], ['/', 'y']]) :=
  c4_symlink_cycle_terminates 'x' 'y' (by decide) (by decide) (by decide)

/-- C5: on the absolute input `/a/./b/../c` with no symlinks anywhere (an
empty symlink table), `resolve_path` rewrites the buffer in place to
`/a/c`, and every `readlink` probe issued (`/a`, `/a/b`, and the final
`/a/c`) is for a prefix that does not end in an eliminated `.` or `..`
segment. -/
theorem c5_dot_segments_collapsed :
    resolveRun [] true 64 "/a/./b/../c".data =
      some ("/a/c".data, ["/a".data, "/a/b".data, "/a/c".data], []) ∧
    ∀ q ∈ ["/a".data, "/a/b".data, "/a/c".data],
      ends_in_dot_segment q = false := by
  decide

/-- C6: with the ptrace sandbox enabled and the executable's basename in
the forced-trace list (and `prctl` succeeding),
`check_and_report_statically_linked_process` returns true, grants tracing
permission and sends the statically-linked report on the secondary pipe —
and never invokes the external `objdump` inspection, leaving the
static-link cache untouched, regardless of the binary's linkage
(`objdumpStatic` is arbitrary). -/
theorem c6_forced_trace_override (cfg : PTraceConfig) (mtimeSec : Int)
    (objdumpStatic prctlOk : Bool) (cache : List (String × Bool))
    (path : String) (hEnabled : cfg.ptraceEnabled = true)
    (hForced : basename path ∈ cfg.forcedNames) (hPrctl : prctlOk = true) :
    check_and_report_statically_linked_process cfg mtimeSec objdumpStatic
        prctlOk cache path =
      (.returns true, cache,
        [.setPtracePermissions, .sendStaticallyLinkedReport true]) ∧
    ∀ p, TraceAction.invokeObjdump p ∉
      (check_and_report_statically_linked_process cfg mtimeSec objdumpStatic
        prctlOk cache path).2.2 := by
  have hlen : ¬ cfg.forcedNames.length = 0 := by
    intro h
    rw [List.length_eq_zero] at h
    rw [h] at hForced
    exact List.not_mem_nil _ hForced
  have hforced : IsPTraceForced cfg.forcedNames path = true := by
    unfold IsPTraceForced
    rw [if_neg hlen]
    exact decide_eq_true hForced
  have hmain : check_and_report_statically_linked_process cfg mtimeSec
      objdumpStatic prctlOk cache path =
      (.returns true, cache,
        [.setPtracePermissions, .sendStaticallyLinkedReport true]) := by
    unfold check_and_report_statically_linked_process
    rw [if_neg (by simp [hEnabled]), if_pos (Or.inl hforced),
      if_neg (by simp [hPrctl])]
  refine ⟨hmain, ?_⟩
  intro p
  rw [hmain]
  simp

/-- C6 witness: `gcc` in the forced list, path `/usr/bin/gcc`. -/
theorem c6_forced_trace_override_witness :
    check_and_report_statically_linked_process
        ⟨true, false, ["gcc"]⟩ 5 false true [] "/usr/bin/gcc" =
      (.returns true, [],
        [.setPtracePermissions, .sendStaticallyLinkedReport true]) ∧
    ∀ p, TraceAction.invokeObjdump p ∉
      (check_and_report_statically_linked_process
        ⟨true, false, ["gcc"]⟩ 5 false true [] "/usr/bin/gcc").2.2 :=
  c6_forced_trace_override ⟨true, false, ["gcc"]⟩ 5 false true []
    "/usr/bin/gcc" rfl (by decide) rfl

/-- C7: in every execution of the forced-trace decision, every
`kOpStaticallyLinkedProcess` report in the action trace is preceded by a
successful `set_ptrace_permissions`; a report is never sent without the
permission having been granted first (a failed grant exits the process
before any report). -/
theorem c7_grant_before_report (cfg : PTraceConfig) (mtimeSec : Int)
    (objdumpStatic prctlOk : Bool) (cache : List (String × Bool))
    (path : String) :
    grantPrecedesSends false
      (check_and_report_statically_linked_process cfg mtimeSec objdumpStatic
        prctlOk cache path).2.2 = true := by
  unfold check_and_report_statically_linked_process
  repeat' split
  all_goals rfl

/-- C8: a descriptor outside `[0, MAX_FD)` is resolved fresh — the table
is neither written (it comes back unchanged) nor read (the resolved path
is the same whatever the table holds); and whenever the `readlink` of the
proc entry is actually issued and fails, `fd_to_path` returns the empty
path and leaves the table unpopulated. -/
theorem c8_fd_out_of_range_and_failure (useFdTable : Bool) (maxFd : Nat)
    (readlinkResult : Option String) (table : List String) (fd : Int) :
    ((fd < 0 ∨ (maxFd : Int) ≤ fd) →
      (fd_to_path useFdTable maxFd readlinkResult table fd).2 = table ∧
      ∀ t2, (fd_to_path useFdTable maxFd readlinkResult t2 fd).1 =
        (fd_to_path useFdTable maxFd readlinkResult table fd).1) ∧
    ((readlinkResult = none ∧
        ¬ (useFdTable = true ∧ 0 < (table.getD fd.toNat "").length)) →
      fd_to_path useFdTable maxFd readlinkResult table fd = ("", table)) := by
  constructor
  · intro h
    unfold fd_to_path
    rw [if_pos h]
    exact ⟨rfl, fun t2 => by rw [if_pos h]⟩
  · rintro ⟨hnone, hmiss⟩
    unfold fd_to_path
    subst hnone
    by_cases hr : fd < 0 ∨ (maxFd : Int) ≤ fd
    · rw [if_pos hr]
      rfl
    · rw [if_neg hr, if_neg hmiss]

/-- C8 witness: a table of capacity 100 holding `/x` at index 1; the
out-of-range descriptor 200 leaves it unchanged, and the in-range
descriptor 5, whose proc readlink fails, yields the empty path with the
table unpopulated. -/
theorem c8_fd_out_of_range_and_failure_witness :
    (fd_to_path true 100 none ["", "/x"] 200).2 = ["", "/x"] ∧
    fd_to_path true 100 none ["", "/x"] 5 = ("", ["", "/x"]) :=
  ⟨((c8_fd_out_of_range_and_failure true 100 none ["", "/x"] 200).1
      (by decide)).1,
   (c8_fd_out_of_range_and_failure true 100 none ["", "/x"] 5).2
      ⟨rfl, by decide⟩⟩

/-- C9 counterexample: on `c9Fs`, where `/r/A` (popped first) fails to
open while the already-discovered `/r/B` would enumerate fine, the claim
says the enumeration continues with `/r/B` and its child `/r/B/c` appears
in the output; the code instead returns false immediately and `/r/B/c` is
never enumerated. -/
theorem c9_enumeration_stops_at_failure :
    EnumerateDirectory c9Fs 10 "/r" true =
      some (false, ["/r", "/r/B", "/r/A"]) ∧
    "/r/B/c" ∉ ["/r", "/r/B", "/r/A"] := by
  decide

/-- C9 (amended): when the directory popped from the stack fails to open,
`EnumerateDirectory` reports overall failure (returns false) but does not
continue: the loop returns at once with the names accumulated so far, and
the already-discovered directories still pending on the stack are never
enumerated. -/
theorem c9_failed_opendir_aborts (fs : DirTable) (recursive : Bool)
    (fuel : Nat) (current : String) (rest : List String) (acc : List String)
    (hFail : dirTableFind fs current = none) :
    enumLoop fs recursive (fuel + 1) (current :: rest) acc =
      some (false, acc) := by
  unfold enumLoop
  rw [hFail]

/-- C9 witness: the amended statement applied at the state `c9Fs` reaches
after processing `/r` (stack `[/r/A, /r/B]`). -/
theorem c9_failed_opendir_aborts_witness :
    enumLoop c9Fs true (8 + 1) ["/r/A", "/r/B"] ["/r", "/r/B", "/r/A"] =
      some (false, ["/r", "/r/B", "/r/A"]) :=
  c9_failed_opendir_aborts c9Fs true 8 "/r/A" ["/r/B"]
    ["/r", "/r/B", "/r/A"] (by decide)

/-- C10: a mode of `0` (stat failed in `get_mode`) is not filtered as a
non-file: `is_non_file 0 = false`, and `create_access_internal` with a
zero mode argument and a zero `get_mode` oracle (assuming the access is
not a cache hit, the path is not an anonymous file, and the sandbox is
enabled for the pid) reaches the policy check and returns the policy
result rather than the not-checked sentinel. -/
theorem c10_zero_mode_not_filtered (disposed lockA lockB : Bool)
    (eventType : EsEvent) (reportPath : String)
    (checkCache isFailingUnexpected : Bool) (policyResult : AccessCheckResult)
    (cache : Cache)
    (hHit : IsCacheHit disposed lockA eventType reportPath "" cache = false)
    (hAnon : is_anonymous_file reportPath = false) :
    is_non_file 0 = false ∧
    (create_access_internal disposed lockA lockB eventType reportPath none 0 0
        checkCache true policyResult isFailingUnexpected cache).1
      = some policyResult ∧
    (create_access_internal disposed lockA lockB eventType reportPath none 0 0
        checkCache true policyResult isFailingUnexpected cache).2.2
      = true := by
  have hcond : ¬ (checkCache = true ∧
      IsCacheHit disposed lockA eventType reportPath ((none : Option String).getD "") cache = true) := by
    rintro ⟨-, h2⟩
    simp only [Option.getD_none] at h2
    rw [hHit] at h2
    exact Bool.false_ne_true h2
  have hnf : ¬ (is_non_file (if (0 : Nat) = 0 then 0 else 0) = true) := by decide
  have hanon2 : ¬ (is_anonymous_file reportPath = true ∨
      (0 < ((none : Option String).getD "").length ∧
        is_anonymous_file ((none : Option String).getD "") = true)) := by
    rintro (h | ⟨h, -⟩)
    · rw [hAnon] at h
      exact Bool.false_ne_true h
    · simp at h
  unfold create_access_internal
  rw [if_neg hcond, if_neg hnf]
  unfold create_access_ioevent
  rw [if_neg (by rintro ⟨h, -⟩; exact Bool.false_ne_true h), if_neg hanon2,
    if_pos rfl]
  split <;> exact ⟨rfl, rfl, rfl⟩


/-- C10 witness: the theorem applied to a fresh write access to
`/tmp/x` on an empty cache with an allowing policy result. -/
theorem c10_zero_mode_not_filtered_witness :
    is_non_file 0 = false ∧
    (create_access_internal false true true .WRITE "/tmp/x" none 0 0
        true true ⟨false, true⟩ false []).1 = some ⟨false, true⟩ ∧
    (create_access_internal false true true .WRITE "/tmp/x" none 0 0
        true true ⟨false, true⟩ false []).2.2 = true :=
  c10_zero_mode_not_filtered false true true .WRITE "/tmp/x" true false
    ⟨false, true⟩ [] (by decide) (by decide)

end BxlObserver
